import Mathlib

/-!
Shallow embedding of the Mikrotik-Layer gateway's connection manager,
traffic-monitoring dispatch, and WebSocket streaming handler
(services/mikrotik_service.go, handlers traffic/WS files), together with
proofs about the frozen specification claims.

Conventions of the embedding:
* Go machine state is passed explicitly (`MikrotikService` below is the
  mutable state of the Go singleton: the RouterID -> connection map plus
  the repository's router table viewed as data).
* External effects (the TCP dial + login worker, the best-effort
  `getSystemInfo` call, the wall clock) are supplied as an explicit
  environment; their outcomes are data, not IO.
* Timestamp bookkeeping columns of the repository (`last_seen`,
  `updated_at`, `created_at`) are elided: no claim mentions them.
* Fallible Go paths return `Option String` errors carrying the same
  message text the Go code formats.
-/

namespace MikrotikLayer

/-- Subset of `models.Router` (models/router.go) used by the service core.
Timestamp columns and fields the core never reads are elided. -/
structure Router where
  ID : Nat
  Name : String
  Hostname : String
  Username : String
  Password : String
  Port : Nat
  IsActive : Bool
  Status : String
  Version : Option String
  Uptime : Option String
deriving Repr, DecidableEq

/-- Embedding of `models.RouterStatusUpdate` (status, version, uptime; `last_seen` elided). -/
structure RouterStatusUpdate where
  Status : String
  Version : Option String
  Uptime : Option String
deriving Repr, DecidableEq

/-- Embedding of `MikrotikConnection` (services/mikrotik_service.go): one router session.
The `*routeros.Client` transport handle is abstracted to a numeric handle id
so that distinct dials yield distinguishable clients. The per-connection
RWMutex `mu` is modelled separately by the lock-trace model further below. -/
structure MikrotikConnection where
  RouterID : Nat
  Client : Nat
  LastPing : Nat
  IsHealthy : Bool
deriving Repr, DecidableEq

/-- State of the `MikrotikService` singleton: the RouterID -> connection map
plus the repository's router table (the `routers` table reached through
`repo`), viewed as association lists. -/
structure MikrotikService where
  connections : List (Nat × MikrotikConnection)
  repo : List (Nat × Router)
deriving Repr, DecidableEq

/-- Go map lookup `ms.connections[routerID]` (first matching key). -/
def lookupConn : List (Nat × MikrotikConnection) → Nat → Option MikrotikConnection
  | [], _ => none
  | p :: rest, id => if p.1 == id then some p.2 else lookupConn rest id

/-- Go map `delete(ms.connections, routerID)`. -/
def eraseConn (l : List (Nat × MikrotikConnection)) (id : Nat) :
    List (Nat × MikrotikConnection) :=
  l.filter (fun p => !(p.1 == id))

/-- Go map store `ms.connections[routerID] = conn`. -/
def insertConn (l : List (Nat × MikrotikConnection)) (id : Nat)
    (c : MikrotikConnection) : List (Nat × MikrotikConnection) :=
  (id, c) :: eraseConn l id

/-- Embedding of `repo.GetByID` (repository/router.go): SELECT * FROM routers WHERE id = ?. -/
def lookupReg : List (Nat × Router) → Nat → Option Router
  | [], _ => none
  | p :: rest, id => if p.1 == id then some p.2 else lookupReg rest id

/-- Embedding of `repo.UpdateStatus` (repository/router.go): UPDATE routers SET
status = ?, version = ?, uptime = ? WHERE id = ?. The Go code binds the
update's pointer fields directly, so a `nil` version/uptime writes NULL. -/
def UpdateStatus (reg : List (Nat × Router)) (id : Nat)
    (upd : RouterStatusUpdate) : List (Nat × Router) :=
  reg.map (fun p =>
    if p.1 == id then
      (p.1, { p.2 with Status := upd.Status, Version := upd.Version,
                       Uptime := upd.Uptime })
    else p)

/-- Status column of a router row, as read back from the repository. -/
def regStatus (reg : List (Nat × Router)) (id : Nat) : Option String :=
  (lookupReg reg id).map (fun r => r.Status)

/-! ### dialWithTimeout -/

/-- Outcome of the dial worker goroutine inside `dialWithTimeout`:
the goroutine either fails the TCP dial, fails creating the RouterOS
client, fails `client.Login`, or succeeds with an authenticated client. -/
inductive WorkerResult where
  | success (client : Nat)
  | tcpDialFailed (msg : String)
  | clientCreationFailed (msg : String)
  | loginFailed (msg : String)
deriving Repr, DecidableEq

/-- The value the worker goroutine sends on `resultChan`, with the error
messages formatted exactly as in the Go code. -/
def workerOutcome : WorkerResult → Except String Nat
  | .success c => .ok c
  | .tcpDialFailed m => .error ("tcp dial failed: " ++ m)
  | .clientCreationFailed m => .error ("routeros client creation failed: " ++ m)
  | .loginFailed m => .error ("login failed: " ++ m)

/-- Environment of one `dialWithTimeout` call: how long (in seconds) the
worker takes before its result is ready, and what that result is. -/
structure DialEnv where
  workerDelay : Nat
  workerResult : WorkerResult
deriving Repr, DecidableEq

/-- Embedding of `dialWithTimeout` (services/mikrotik_service.go): the select between
`resultChan` and `ctx.Done()`. If the worker's result is ready strictly
before the timeout expires it is returned; otherwise the context fires,
the late worker result is discarded, and the timeout error is returned
with no client. -/
def dialWithTimeout (env : DialEnv) (timeout : Nat) : Except String Nat :=
  if env.workerDelay < timeout then workerOutcome env.workerResult
  else .error ("connection timeout after " ++ toString timeout ++ "s")

/-- The timeout `ConnectRouter` passes to `dialWithTimeout` (`20*time.Second`). -/
def dialTimeoutSeconds : Nat := 20

/-! ### ConnectRouter / DisconnectRouter / GetConnection -/

/-- Result of `getSystemInfo` (best effort: `ConnectRouter` ignores the error). -/
structure SystemInfo where
  Version : String
  Uptime : String
deriving Repr, DecidableEq

/-- Environment of one `ConnectRouter` call. -/
structure ConnectEnv where
  dial : DialEnv
  systemInfo : Option SystemInfo
  now : Nat
deriving Repr, DecidableEq

/-- Result of `ConnectRouter`: the Go error (if any), the state after the
call, and an effect record: whether a dial was attempted, whether the
descriptor was loaded from the repository, and which client handles got
`Close()`d. -/
structure ConnectResult where
  err : Option String
  state : MikrotikService
  dialAttempted : Bool
  descriptorLoaded : Bool
  closedClients : List Nat
deriving Repr, DecidableEq

/-- Tail of `ConnectRouter` after the existing-connection check: load the
descriptor, check `IsActive`, dial with timeout, update status, install.
`closed` carries the clients closed by the unhealthy-entry check. -/
def ConnectRouterLoad (st : MikrotikService) (env : ConnectEnv)
    (routerID : Nat) (closed : List Nat) : ConnectResult :=
  match lookupReg st.repo routerID with
  | none =>
    { err := some "router not found", state := st, dialAttempted := false,
      descriptorLoaded := true, closedClients := closed }
  | some router =>
    if !router.IsActive then
      { err := some "router is not active", state := st,
        dialAttempted := false, descriptorLoaded := true,
        closedClients := closed }
    else
      match dialWithTimeout env.dial dialTimeoutSeconds with
      | .error e =>
        let repoAfter := UpdateStatus st.repo routerID
          { Status := "error", Version := none, Uptime := none }
        { err := some ("failed to connect: " ++ e),
          state := { st with repo := repoAfter },
          dialAttempted := true, descriptorLoaded := true,
          closedClients := closed }
      | .ok client =>
        let statusUpdate : RouterStatusUpdate :=
          match env.systemInfo with
          | some si =>
            { Status := "online", Version := some si.Version,
              Uptime := some si.Uptime }
          | none => { Status := "online", Version := none, Uptime := none }
        let newConn : MikrotikConnection :=
          { RouterID := routerID, Client := client,
            LastPing := env.now, IsHealthy := true }
        { err := none,
          state :=
            { connections := insertConn st.connections routerID newConn,
              repo := UpdateStatus st.repo routerID statusUpdate },
          dialAttempted := true, descriptorLoaded := true,
          closedClients := closed }

/-- Embedding of `ConnectRouter` (services/mikrotik_service.go): under `ms.mu`, return
immediately if a healthy connection exists; close and delete an unhealthy
one; then load the descriptor and connect. -/
def ConnectRouter (st : MikrotikService) (env : ConnectEnv)
    (routerID : Nat) : ConnectResult :=
  match lookupConn st.connections routerID with
  | some conn =>
    if conn.IsHealthy then
      { err := none, state := st, dialAttempted := false,
        descriptorLoaded := false, closedClients := [] }
    else
      ConnectRouterLoad
        { st with connections := eraseConn st.connections routerID }
        env routerID [conn.Client]
  | none => ConnectRouterLoad st env routerID []

/-- Result of `DisconnectRouter`. -/
structure DisconnectResult where
  err : Option String
  state : MikrotikService
  closedClients : List Nat
deriving Repr, DecidableEq

/-- Embedding of `DisconnectRouter` (services/mikrotik_service.go): fail with
"router not connected" when no session exists (leaving everything
untouched); otherwise close the client, delete the map entry and set the
repository status to "offline". -/
def DisconnectRouter (st : MikrotikService) (routerID : Nat) :
    DisconnectResult :=
  match lookupConn st.connections routerID with
  | none => { err := some "router not connected", state := st, closedClients := [] }
  | some conn =>
    let repoAfter := UpdateStatus st.repo routerID
      { Status := "offline", Version := none, Uptime := none }
    { err := none,
      state :=
        { connections := eraseConn st.connections routerID,
          repo := repoAfter },
      closedClients := [conn.Client] }

/-- Result of `GetConnection`. -/
structure GetConnectionResult where
  conn : Option MikrotikConnection
  err : Option String
  state : MikrotikService
  connectAttempted : Bool
  closedClients : List Nat
deriving Repr, DecidableEq

/-- Embedding of `GetConnection` (services/mikrotik_service.go): look the connection up;
when absent, call `ConnectRouter` and re-read the map; finally return the
"router connection unhealthy" error if the found connection's `IsHealthy`
is false, else hand the connection out. (In Go, the re-read after a
successful `ConnectRouter` cannot be absent sequentially; were it absent,
the `conn.IsHealthy` dereference would panic, modelled by the dead
"nil connection dereference" branch.) -/
def GetConnection (st : MikrotikService) (env : ConnectEnv)
    (routerID : Nat) : GetConnectionResult :=
  match lookupConn st.connections routerID with
  | some conn =>
    if !conn.IsHealthy then
      { conn := none, err := some "router connection unhealthy", state := st,
        connectAttempted := false, closedClients := [] }
    else
      { conn := some conn, err := none, state := st,
        connectAttempted := false, closedClients := [] }
  | none =>
    let res := ConnectRouter st env routerID
    match res.err with
    | some e =>
      { conn := none, err := some ("router not connected: " ++ e),
        state := res.state, connectAttempted := true,
        closedClients := res.closedClients }
    | none =>
      match lookupConn res.state.connections routerID with
      | some conn =>
        if !conn.IsHealthy then
          { conn := none, err := some "router connection unhealthy",
            state := res.state, connectAttempted := true,
            closedClients := res.closedClients }
        else
          { conn := some conn, err := none, state := res.state,
            connectAttempted := true, closedClients := res.closedClients }
      | none =>
        { conn := none, err := some "nil connection dereference",
          state := res.state, connectAttempted := true,
          closedClients := res.closedClients }

/-! ### Subscription lifecycle of `MonitorInterfaceTrafficWithContext`

Every call to `MonitorInterfaceTrafficWithContext` (one per WebSocket
consumer per interface, from `MonitorTrafficWS`) issues its own
`conn.Client.Listen("/interface/monitor-traffic", ...)` on the device
and spawns a goroutine that owns that listener and `Cancel()`s it when
the consumer's context is cancelled (or the channel closes). There is no
shared registry of subscriptions in the code: the state below tracks the
open device-side listeners and the registered consumers as they evolve
under start/stop events. -/

/-- One open RouterOS `Listen` subscription on
`/interface/monitor-traffic` for a given interface. `owner` is the
consumer (the `MonitorInterfaceTrafficWithContext` call) whose goroutine
holds and will cancel this listener. -/
structure ListenEntry where
  routerID : Nat
  iface : String
  listenId : Nat
  owner : Nat
deriving Repr, DecidableEq

/-- One registered external consumer (a WebSocket client's callback for
one interface). -/
structure ConsumerEntry where
  routerID : Nat
  iface : String
  consumerId : Nat
deriving Repr, DecidableEq

/-- The monitoring state: open device-side listeners and registered
consumers. `nextListenId` numbers the listeners as the device allocates
them. -/
structure MonitorState where
  nextListenId : Nat
  openListens : List ListenEntry
  consumers : List ConsumerEntry
deriving Repr, DecidableEq

/-- No monitoring active. -/
def MonitorState.init : MonitorState :=
  { nextListenId := 0, openListens := [], consumers := [] }

/-- Lifecycle events: `start rid ifn cid ok` is one
`MonitorInterfaceTrafficWithContext` call by consumer `cid` (with
`ok = false` when the `Listen` command fails, in which case no listener
is opened and no callback is ever invoked); `stop rid ifn cid` is the
cancellation of that consumer's context, which makes its goroutine
return and `Cancel()` the listener it owns. -/
inductive MonitorOp where
  | start (routerID : Nat) (iface : String) (consumerId : Nat) (listenOk : Bool)
  | stop (routerID : Nat) (iface : String) (consumerId : Nat)
deriving Repr, DecidableEq

/-- Predicate matching a listener by (router, interface, owner). -/
def listenOwnedBy (routerID : Nat) (iface : String) (consumerId : Nat)
    (e : ListenEntry) : Bool :=
  e.routerID == routerID && e.iface == iface && e.owner == consumerId

/-- Predicate matching a consumer by (router, interface, consumer id). -/
def consumerIs (routerID : Nat) (iface : String) (consumerId : Nat)
    (e : ConsumerEntry) : Bool :=
  e.routerID == routerID && e.iface == iface && e.consumerId == consumerId

/-- One lifecycle step: a successful start opens a fresh `Listen` on the
device (unconditionally - the code never looks for an existing
subscription for the same (router, interface)) and registers the
consumer; a stop unregisters the consumer and cancels the listener its
goroutine owns. -/
def monitorStep (s : MonitorState) : MonitorOp → MonitorState
  | .start rid ifn cid ok =>
    if ok then
      { nextListenId := s.nextListenId + 1,
        openListens :=
          { routerID := rid, iface := ifn, listenId := s.nextListenId,
            owner := cid } :: s.openListens,
        consumers :=
          { routerID := rid, iface := ifn, consumerId := cid } :: s.consumers }
    else s
  | .stop rid ifn cid =>
    { s with
      openListens := s.openListens.eraseP (listenOwnedBy rid ifn cid),
      consumers := s.consumers.eraseP (consumerIs rid ifn cid) }

/-- Run a sequence of lifecycle events from the idle state. -/
def monitorRun (ops : List MonitorOp) : MonitorState :=
  ops.foldl monitorStep MonitorState.init

/-- Number of open device-side subscriptions for a (router, interface)
pair. -/
def listenCount (s : MonitorState) (routerID : Nat) (iface : String) : Nat :=
  s.openListens.countP (fun e => e.routerID == routerID && e.iface == iface)

/-- Number of registered consumers for a (router, interface) pair. -/
def consumerCount (s : MonitorState) (routerID : Nat) (iface : String) : Nat :=
  s.consumers.countP (fun e => e.routerID == routerID && e.iface == iface)

/-- Listeners for the pair owned by one particular consumer. -/
def ownedListenCount (s : MonitorState) (routerID : Nat) (iface : String)
    (consumerId : Nat) : Nat :=
  s.openListens.countP (listenOwnedBy routerID iface consumerId)

/-- Registered consumer entries for one particular consumer id and pair. -/
def registeredCount (s : MonitorState) (routerID : Nat) (iface : String)
    (consumerId : Nat) : Nat :=
  s.consumers.countP (consumerIs routerID iface consumerId)

/-! ### Per-session command lock modes

Each `MikrotikConnection` carries a `sync.RWMutex` `mu`. The one-shot
operations acquire it as written in the Go source: the three listings
take the read lock (`RLock`), every mutation and the one-shot traffic
sample take the write lock (`Lock`), and the health probe
(`checkConnection`) takes the write lock. Under Go's RWMutex semantics,
two holders can be inside their critical sections at the same time
exactly when both hold the read lock. -/

/-- The one-shot operations that execute commands against a session. -/
inductive SessionOp where
  | getInterfaces
  | enableInterface
  | disableInterface
  | getAddresses
  | addAddress
  | removeAddress
  | getQueues
  | addQueue
  | removeQueue
  | getInterfaceTrafficOnce
  | checkConnection
deriving Repr, DecidableEq, Fintype

/-- RWMutex acquisition mode. -/
inductive LockMode where
  | read
  | write
deriving Repr, DecidableEq, Fintype

/-- The mode in which each operation acquires the session's `mu`,
transcribed from the Go source (`conn.mu.RLock()` vs `conn.mu.Lock()`). -/
def sessionLockMode : SessionOp → LockMode
  | .getInterfaces => .read
  | .enableInterface => .write
  | .disableInterface => .write
  | .getAddresses => .read
  | .addAddress => .write
  | .removeAddress => .write
  | .getQueues => .read
  | .addQueue => .write
  | .removeQueue => .write
  | .getInterfaceTrafficOnce => .write
  | .checkConnection => .write

/-- Go `sync.RWMutex`: two critical sections can overlap iff both hold
the read lock. -/
def locksCompatible : LockMode → LockMode → Bool
  | .read, .read => true
  | _, _ => false

/-- Whether two one-shot operations on the same session can be executing
their device commands at the same time. -/
def mayRunConcurrently (a b : SessionOp) : Bool :=
  locksCompatible (sessionLockMode a) (sessionLockMode b)

/-! ### Lock-holding traces of the service operations

For claim C4 we record, for each service operation, the sequence of its
significant actions annotated with which locks are held while the action
runs, transcribed from the Go source. `mapLockHeld` is the service-level
`ms.mu`; `sessionLockHeld` is the per-connection `conn.mu` (in either
mode). Where an operation branches, the trace follows the path that
performs the most actions (the successful path); every action of any
other path is a prefix of it with the same lock annotations. -/

/-- Kinds of significant actions. -/
inductive StepAction where
  | mapRead
  | mapWrite
  | registryRead
  | registryWrite
  | netDial
  | netCommand
  | closeClient
deriving Repr, DecidableEq, Fintype

/-- One action with the locks held while it runs. -/
structure TraceStep where
  mapLockHeld : Bool
  sessionLockHeld : Bool
  action : StepAction
deriving Repr, DecidableEq

/-- The service operations whose bodies touch the shared map or the
network. -/
inductive ServiceOp where
  | connectRouter
  | disconnectRouter
  | getConnectionHit
  | getAllConnections
  | healthSweepSnapshot
  | getInterfaces
  | enableInterface
  | getInterfaceTrafficOnce
  | checkConnection
deriving Repr, DecidableEq, Fintype

/-- Action traces transcribed from the Go bodies.
* `ConnectRouter` holds `ms.mu.Lock()` for its entire body: the map
  check, the `repo.GetByID` load, the `dialWithTimeout` (TCP dial plus
  login), the `getSystemInfo` device command, the `repo.UpdateStatus`
  write, and the map install all run with the map lock held.
* `DisconnectRouter` likewise runs entirely under `ms.mu.Lock()`.
* `GetConnection`'s map lookup runs under `ms.mu.RLock()`, released
  before anything else happens.
* `GetAllConnections` and the health sweep's snapshot only read the map
  under `ms.mu.RLock()`.
* The one-shot operations (`GetInterfaces`, `EnableInterface`,
  `GetInterfaceTrafficOnce`, ...) first do `GetConnection`'s map lookup
  under `ms.mu.RLock()`, then run their device command(s) under the
  session's `conn.mu` with the map lock released.
* `checkConnection` runs its liveness probe, the `getSystemInfo` call
  and the status write under `conn.mu.Lock()` with no map lock. -/
def opTrace : ServiceOp → List TraceStep
  | .connectRouter =>
    [ { mapLockHeld := true, sessionLockHeld := false, action := .mapRead },
      { mapLockHeld := true, sessionLockHeld := false, action := .registryRead },
      { mapLockHeld := true, sessionLockHeld := false, action := .netDial },
      { mapLockHeld := true, sessionLockHeld := false, action := .netCommand },
      { mapLockHeld := true, sessionLockHeld := false, action := .registryWrite },
      { mapLockHeld := true, sessionLockHeld := false, action := .mapWrite } ]
  | .disconnectRouter =>
    [ { mapLockHeld := true, sessionLockHeld := false, action := .mapRead },
      { mapLockHeld := true, sessionLockHeld := false, action := .closeClient },
      { mapLockHeld := true, sessionLockHeld := false, action := .mapWrite },
      { mapLockHeld := true, sessionLockHeld := false, action := .registryWrite } ]
  | .getConnectionHit =>
    [ { mapLockHeld := true, sessionLockHeld := false, action := .mapRead } ]
  | .getAllConnections =>
    [ { mapLockHeld := true, sessionLockHeld := false, action := .mapRead } ]
  | .healthSweepSnapshot =>
    [ { mapLockHeld := true, sessionLockHeld := false, action := .mapRead } ]
  | .getInterfaces =>
    [ { mapLockHeld := true, sessionLockHeld := false, action := .mapRead },
      { mapLockHeld := false, sessionLockHeld := true, action := .netCommand } ]
  | .enableInterface =>
    [ { mapLockHeld := true, sessionLockHeld := false, action := .mapRead },
      { mapLockHeld := false, sessionLockHeld := true, action := .netCommand },
      { mapLockHeld := false, sessionLockHeld := true, action := .netCommand } ]
  | .getInterfaceTrafficOnce =>
    [ { mapLockHeld := true, sessionLockHeld := false, action := .mapRead },
      { mapLockHeld := false, sessionLockHeld := true, action := .netCommand } ]
  | .checkConnection =>
    [ { mapLockHeld := false, sessionLockHeld := true, action := .netCommand },
      { mapLockHeld := false, sessionLockHeld := true, action := .netCommand },
      { mapLockHeld := false, sessionLockHeld := true, action := .registryWrite } ]

/-- Whether an action is a network call (TCP dial, login, or a device
command). -/
def isNetworkCall : StepAction → Bool
  | .netDial => true
  | .netCommand => true
  | _ => false

/-! ### The traffic-monitoring dispatch loop

`MonitorInterfaceTrafficWithContext`'s goroutine reads sentences from
`listen.Chan()` and, per sentence: skips `!trap` records (logging them),
skips `!done`, skips anything whose word is not `!re`, and otherwise
builds a `TrafficStats` directly from the sentence map and invokes the
consumer callback. The loop below processes the received sentences (each
paired with the `time.Now()` value at receipt) in order and returns the
samples passed to the callback, in delivery order. -/

/-- A decoded RouterOS API sentence: its word (`!re`, `!trap`, `!done`,
...) and its attribute map (Go `map[string]string`, modelled as an
association list; a missing key reads as `""`, Go's zero value). -/
structure Sentence where
  Word : String
  Map : List (String × String)
deriving Repr, DecidableEq

/-- Go map read `sentence.Map[key]` (zero value `""` when absent). -/
def mapGet (m : List (String × String)) (key : String) : String :=
  match m.find? (fun p => p.1 == key) with
  | some p => p.2
  | none => ""

/-- Embedding of `TrafficStats` (services/mikrotik_service.go). -/
structure TrafficStats where
  RouterID : Nat
  InterfaceName : String
  RxBytes : String
  TxBytes : String
  RxPackets : String
  TxPackets : String
  RxBitsPerSec : String
  TxBitsPerSec : String
  Timestamp : Nat
deriving Repr, DecidableEq

/-- The `TrafficStats` literal the goroutine builds from a `!re`
sentence: every counter and bit-rate field is the sentence map's value
verbatim. -/
def trafficStatsOf (routerID : Nat) (interfaceName : String) (s : Sentence)
    (now : Nat) : TrafficStats :=
  { RouterID := routerID,
    InterfaceName := interfaceName,
    RxBytes := mapGet s.Map "rx-bytes",
    TxBytes := mapGet s.Map "tx-bytes",
    RxPackets := mapGet s.Map "rx-packets",
    TxPackets := mapGet s.Map "tx-packets",
    RxBitsPerSec := mapGet s.Map "rx-bits-per-second",
    TxBitsPerSec := mapGet s.Map "tx-bits-per-second",
    Timestamp := now }

/-- The dispatch loop body of `MonitorInterfaceTrafficWithContext`, over
the sentences received before cancellation/close, each paired with its
receipt time: `!trap` is logged and dropped, `!done` is dropped, any
other non-`!re` word is dropped, and a `!re` sentence is forwarded to the
callback as a sample. -/
def monitorDispatchLoop (routerID : Nat) (interfaceName : String) :
    List (Sentence × Nat) → List TrafficStats
  | [] => []
  | (s, now) :: rest =>
    if s.Word == "!trap" then monitorDispatchLoop routerID interfaceName rest
    else if s.Word == "!done" then monitorDispatchLoop routerID interfaceName rest
    else if s.Word != "!re" then monitorDispatchLoop routerID interfaceName rest
    else
      trafficStatsOf routerID interfaceName s now ::
        monitorDispatchLoop routerID interfaceName rest

/-! ### Start/status phase of `MonitorTrafficWS`

After parsing parameters, `MonitorTrafficWS` starts one
`MonitorInterfaceTrafficWithContext` per requested interface, collecting
a `"iface: err"` string for each start failure, then sends at most one
`error` event (naming every failed interface) and returns immediately
when all starts failed, else sends a `connected` event when at least one
interface started, and keeps streaming. The model covers this status
phase for a live connection (writes succeed, `wsOpen` true); the start
outcome per interface is the environment `startErr`. -/

/-- Events the handler writes to the WebSocket
(`{type: connected|traffic_update|error|pong}`). -/
inductive WsEvent where
  | connected (message : String)
  | errorEvent (error : String)
  | trafficUpdate (iface : String)
  | pong
deriving Repr, DecidableEq

/-- The `startErrors` slice: for each interface whose
`MonitorInterfaceTrafficWithContext` returned an error, the string
`fmt.Sprintf("%s: %v", interfaceName, err)`, in request order. -/
def collectStartErrors (startErr : String → Option String)
    (interfaces : List String) : List String :=
  interfaces.filterMap (fun i => (startErr i).map (fun e => i ++ ": " ++ e))

/-- The single error event's text:
`"Failed to start %d interface(s): %s"` with the failures joined by
`"; "`. -/
def failedStartMessage (startErrors : List String) : String :=
  "Failed to start " ++ toString startErrors.length ++ " interface(s): " ++
    String.intercalate "; " startErrors

/-- The `connected` event's text: `"Monitoring started for router %d: %s
(%d interface(s))"` over the full requested list. -/
def connectedMessage (routerID : Nat) (interfaces : List String)
    (successCount : Nat) : String :=
  "Monitoring started for router " ++ toString routerID ++ ": " ++
    String.intercalate ", " interfaces ++ " (" ++ toString successCount ++
    " interface(s))"

/-- The success message is sent only when `successCount > 0`. -/
def wsSuccessEvents (routerID : Nat) (interfaces : List String)
    (successCount : Nat) : List WsEvent :=
  if successCount > 0 then
    [WsEvent.connected (connectedMessage routerID interfaces successCount)]
  else []

/-- Outcome of the status phase: the events written, and whether the
handler returned immediately (all starts failed). -/
structure StatusPhaseResult where
  events : List WsEvent
  terminated : Bool
deriving Repr, DecidableEq

/-- The status phase of `MonitorTrafficWS`, following the Go control
flow: if any start failed, send one error event naming all failures; if
moreover every start failed, return immediately; otherwise send the
`connected` event for the `len(interfaces) - len(startErrors)` successes
and continue streaming. -/
def MonitorTrafficWSStatusPhase (routerID : Nat) (interfaces : List String)
    (startErr : String → Option String) : StatusPhaseResult :=
  let startErrors := collectStartErrors startErr interfaces
  if startErrors.length > 0 then
    if startErrors.length == interfaces.length then
      { events := [WsEvent.errorEvent (failedStartMessage startErrors)],
        terminated := true }
    else
      { events := WsEvent.errorEvent (failedStartMessage startErrors) ::
          wsSuccessEvents routerID interfaces
            (interfaces.length - startErrors.length),
        terminated := false }
  else
    { events := wsSuccessEvents routerID interfaces
        (interfaces.length - startErrors.length),
      terminated := false }

/-- Whether a WebSocket event is an `error` event. -/
def isErrorEvent : WsEvent → Bool
  | .errorEvent _ => true
  | _ => false

/-! ## Helper lemmas -/

/-- Deleting a key from the connection map makes its lookup miss. -/
theorem lookupConn_eraseConn (l : List (Nat × MikrotikConnection)) (id : Nat) :
    lookupConn (eraseConn l id) id = none := by
  induction l with
  | nil => rfl
  | cons p rest ih =>
    simp only [eraseConn, List.filter_cons] at *
    by_cases h : p.1 == id
    · simpa [h] using ih
    · simpa [lookupConn, h] using ih

/-- Storing a connection makes its lookup hit. -/
theorem lookupConn_insertConn_self (l : List (Nat × MikrotikConnection))
    (id : Nat) (c : MikrotikConnection) :
    lookupConn (insertConn l id c) id = some c := by
  simp [insertConn, lookupConn]

/-- Lemma: `UpdateStatus` rewrites exactly the looked-up row. -/
theorem lookupReg_UpdateStatus_self (reg : List (Nat × Router)) (id : Nat)
    (upd : RouterStatusUpdate) :
    lookupReg (UpdateStatus reg id upd) id =
      (lookupReg reg id).map (fun r =>
        { r with Status := upd.Status, Version := upd.Version,
                 Uptime := upd.Uptime }) := by
  induction reg with
  | nil => rfl
  | cons p rest ih =>
    by_cases h : p.1 == id
    · simp [UpdateStatus, lookupReg, h]
    · simpa [UpdateStatus, lookupReg, h] using ih

/-! ## Shared concrete fixtures for witnesses and counterexamples -/

/-- An active router descriptor. -/
def router1 : Router :=
  { ID := 1, Name := "r1", Hostname := "10.0.0.1", Username := "admin",
    Password := "pw", Port := 8728, IsActive := true, Status := "offline",
    Version := none, Uptime := none }

/-- The same router, deactivated. -/
def router1inactive : Router := { router1 with IsActive := false }

/-- A stale, unhealthy session for router 1 using client handle 7. -/
def staleConn : MikrotikConnection :=
  { RouterID := 1, Client := 7, LastPing := 0, IsHealthy := false }

/-- A healthy session for router 1 using client handle 7. -/
def healthyConn : MikrotikConnection :=
  { RouterID := 1, Client := 7, LastPing := 3, IsHealthy := true }

/-- An environment whose dial worker succeeds quickly with client 8. -/
def envOk : ConnectEnv :=
  { dial := { workerDelay := 1, workerResult := .success 8 },
    systemInfo := none, now := 5 }

/-- An environment whose dial worker is still running when the 20s
timeout fires. -/
def envTimeout : ConnectEnv :=
  { dial := { workerDelay := 25, workerResult := .success 3 },
    systemInfo := none, now := 5 }

/-- Service state holding the stale unhealthy session for router 1. -/
def stStale : MikrotikService :=
  { connections := [(1, staleConn)], repo := [(1, router1)] }

/-- Service state holding the healthy session for router 1. -/
def stHealthy : MikrotikService :=
  { connections := [(1, healthyConn)], repo := [(1, router1)] }

/-- Service state with no session and a deactivated router 1. -/
def stInactive : MikrotikService :=
  { connections := [], repo := [(1, router1inactive)] }

/-- Service state with no session and the active router 1. -/
def stNoConn : MikrotikService :=
  { connections := [], repo := [(1, router1)] }

/-! ## Claim C5 -/

/-- C5: with no existing session, a descriptor that loads and whose
activation flag is false makes `ConnectRouter` return the "router is not
active" failure with no dial attempted and the whole state (connection
map and repository) unchanged. -/
theorem connectRouter_inactive (st : MikrotikService) (env : ConnectEnv)
    (routerID : Nat) (r : Router)
    (hconn : lookupConn st.connections routerID = none)
    (hreg : lookupReg st.repo routerID = some r)
    (hact : r.IsActive = false) :
    ConnectRouter st env routerID =
      { err := some "router is not active", state := st,
        dialAttempted := false, descriptorLoaded := true,
        closedClients := [] } := by
  simp [ConnectRouter, hconn, ConnectRouterLoad, hreg, hact]

/-- C5 witness: router 1 deactivated, no session. -/
theorem connectRouter_inactive_witness :
    ConnectRouter stInactive envOk 1 =
      { err := some "router is not active", state := stInactive,
        dialAttempted := false, descriptorLoaded := true,
        closedClients := [] } :=
  connectRouter_inactive stInactive envOk 1 router1inactive rfl rfl rfl

/-! ## Claim C10 -/

/-- C10: `ConnectRouter` is idempotent on a healthy connection: when the
map holds a healthy session for the router id, it returns success
without loading the descriptor, without dialing, and with the state
(connection map and repository) unchanged. -/
theorem connectRouter_idempotent_on_healthy (st : MikrotikService)
    (env : ConnectEnv) (routerID : Nat) (conn : MikrotikConnection)
    (hconn : lookupConn st.connections routerID = some conn)
    (hhealthy : conn.IsHealthy = true) :
    ConnectRouter st env routerID =
      { err := none, state := st, dialAttempted := false,
        descriptorLoaded := false, closedClients := [] } := by
  simp [ConnectRouter, hconn, hhealthy]

/-- C10 witness: healthy session for router 1 already present. -/
theorem connectRouter_idempotent_witness :
    ConnectRouter stHealthy envOk 1 =
      { err := none, state := stHealthy, dialAttempted := false,
        descriptorLoaded := false, closedClients := [] } :=
  connectRouter_idempotent_on_healthy stHealthy envOk 1 healthyConn rfl rfl

/-! ## Claim C9 -/

/-- C9: `DisconnectRouter` with a session present removes it from the
map, closes its client, and writes repository status "offline"; with no
session present it fails with "router not connected" and leaves both the
connection map and the repository untouched. -/
theorem disconnectRouter_spec (st : MikrotikService) (routerID : Nat) :
    (∀ conn, lookupConn st.connections routerID = some conn →
      DisconnectRouter st routerID =
        { err := none,
          state := { connections := eraseConn st.connections routerID,
                     repo := UpdateStatus st.repo routerID
                       { Status := "offline", Version := none,
                         Uptime := none } },
          closedClients := [conn.Client] } ∧
      lookupConn (DisconnectRouter st routerID).state.connections routerID =
        none) ∧
    (lookupConn st.connections routerID = none →
      DisconnectRouter st routerID =
        { err := some "router not connected", state := st,
          closedClients := [] }) := by
  constructor
  · intro conn hconn
    constructor
    · simp [DisconnectRouter, hconn]
    · simp [DisconnectRouter, hconn, lookupConn_eraseConn]
  · intro hnone
    simp [DisconnectRouter, hnone]

/-- C9 witness: disconnecting router 1 with its session present removes
the entry and records "offline". -/
theorem disconnectRouter_witness :
    DisconnectRouter stStale 1 =
      { err := none,
        state := { connections := eraseConn stStale.connections 1,
                   repo := UpdateStatus stStale.repo 1
                     { Status := "offline", Version := none,
                       Uptime := none } },
        closedClients := [staleConn.Client] } :=
  ((disconnectRouter_spec stStale 1).1 staleConn rfl).1

/-! ## Claim C6 -/

/-- C6: `dialWithTimeout` returns the worker's outcome when it is ready
before the 20-second bound, and the timeout error (with no client, the
worker's late result discarded: the result is the same for every worker
outcome) when the bound elapses first; and `ConnectRouter` surfaces any
dial failure as "failed to connect: ..." while recording repository
status "error" and installing no session. -/
theorem dialWithTimeout_race (st : MikrotikService) (cenv : ConnectEnv)
    (routerID : Nat) (r : Router)
    (hconn : lookupConn st.connections routerID = none)
    (hreg : lookupReg st.repo routerID = some r)
    (hact : r.IsActive = true) :
    (∀ env : DialEnv, env.workerDelay < dialTimeoutSeconds →
      dialWithTimeout env dialTimeoutSeconds = workerOutcome env.workerResult) ∧
    (∀ env : DialEnv, dialTimeoutSeconds ≤ env.workerDelay →
      dialWithTimeout env dialTimeoutSeconds =
        .error ("connection timeout after " ++ toString dialTimeoutSeconds ++ "s")) ∧
    (∀ e, dialWithTimeout cenv.dial dialTimeoutSeconds = .error e →
      (ConnectRouter st cenv routerID).err =
          some ("failed to connect: " ++ e) ∧
        regStatus (ConnectRouter st cenv routerID).state.repo routerID =
          some "error" ∧
        lookupConn (ConnectRouter st cenv routerID).state.connections
          routerID = none) := by
  refine ⟨fun env h => ?_, fun env h => ?_, fun e hdial => ?_⟩
  · simp [dialWithTimeout, h]
  · simp [dialWithTimeout, Nat.not_lt.mpr h]
  · constructor
    · simp [ConnectRouter, hconn, ConnectRouterLoad, hreg, hact, hdial]
    · constructor
      · simp [ConnectRouter, hconn, ConnectRouterLoad, hreg, hact, hdial,
          regStatus, lookupReg_UpdateStatus_self]
      · simp [ConnectRouter, hconn, ConnectRouterLoad, hreg, hact, hdial]

/-- C6 witness: router 1 active, no session, worker still running at the
20s mark: the dial times out, `ConnectRouter` fails and records status
"error", and no session is installed. -/
theorem dialWithTimeout_race_witness :
    (ConnectRouter stNoConn envTimeout 1).err =
        some "failed to connect: connection timeout after 20s" ∧
      regStatus (ConnectRouter stNoConn envTimeout 1).state.repo 1 =
        some "error" ∧
      lookupConn (ConnectRouter stNoConn envTimeout 1).state.connections 1 =
        none :=
  (dialWithTimeout_race stNoConn envTimeout 1 router1 rfl rfl rfl).2.2
    "connection timeout after 20s" rfl

/-! ## Claim C2 -/

/-- C2 counterexample: with an unhealthy session for router 1 in the map,
an active descriptor that loads, and a dial environment that would
succeed, `GetConnection` does NOT close, evict, and reconnect: it
returns the "router connection unhealthy" error, hands out no session,
closes nothing, and leaves the map (stale entry included) unchanged. -/
theorem getConnection_unhealthy_counterexample :
    (GetConnection stStale envOk 1).err = some "router connection unhealthy" ∧
    (GetConnection stStale envOk 1).conn = none ∧
    (GetConnection stStale envOk 1).state = stStale ∧
    (GetConnection stStale envOk 1).closedClients = [] := by
  refine ⟨rfl, rfl, rfl, rfl⟩

/-- C2 amended: the close-evict-reconnect behaviour belongs to
`ConnectRouter` (reached from the health sweep's reconnect, an explicit
connect request, or `GetConnection` when no map entry exists at all):
with an unhealthy entry present, a loading active descriptor, and a
successful dial, `ConnectRouter` closes exactly the stale client, evicts
it, and installs a fresh healthy session; `GetConnection` itself, on
finding an unhealthy entry, merely fails with "router connection
unhealthy". -/
theorem connectRouter_evicts_unhealthy (st : MikrotikService)
    (env : ConnectEnv) (routerID : Nat) (conn : MikrotikConnection)
    (r : Router) (client : Nat)
    (hconn : lookupConn st.connections routerID = some conn)
    (hunhealthy : conn.IsHealthy = false)
    (hreg : lookupReg st.repo routerID = some r)
    (hact : r.IsActive = true)
    (hdial : dialWithTimeout env.dial dialTimeoutSeconds = .ok client) :
    (ConnectRouter st env routerID).err = none ∧
    (ConnectRouter st env routerID).closedClients = [conn.Client] ∧
    lookupConn (ConnectRouter st env routerID).state.connections routerID =
      some { RouterID := routerID, Client := client, LastPing := env.now,
             IsHealthy := true } ∧
    (GetConnection st env routerID).err =
      some "router connection unhealthy" := by
  refine ⟨?_, ?_, ?_, ?_⟩
  · simp [ConnectRouter, hconn, hunhealthy, ConnectRouterLoad, hreg, hact, hdial]
  · simp [ConnectRouter, hconn, hunhealthy, ConnectRouterLoad, hreg, hact, hdial]
  · simp [ConnectRouter, hconn, hunhealthy, ConnectRouterLoad, hreg, hact, hdial,
      lookupConn_insertConn_self]
  · simp [GetConnection, hconn, hunhealthy]

/-- C2 amended witness: stale session (client 7) for router 1, dial
delivering fresh client 8. -/
theorem connectRouter_evicts_unhealthy_witness :
    (ConnectRouter stStale envOk 1).err = none ∧
    (ConnectRouter stStale envOk 1).closedClients = [staleConn.Client] ∧
    lookupConn (ConnectRouter stStale envOk 1).state.connections 1 =
      some { RouterID := 1, Client := 8, LastPing := envOk.now,
             IsHealthy := true } ∧
    (GetConnection stStale envOk 1).err =
      some "router connection unhealthy" :=
  connectRouter_evicts_unhealthy stStale envOk 1 staleConn router1 8
    rfl rfl rfl rfl rfl

/-! ## Claim C3 -/

/-- C3 counterexample: `GetInterfaces` and `GetAddresses` both take the
session RWMutex in read mode (`conn.mu.RLock()`), so two such command
executions against the same device's session CAN run concurrently - the
claimed total serialization of all one-shot commands fails. -/
theorem sessionLock_counterexample :
    mayRunConcurrently SessionOp.getInterfaces SessionOp.getAddresses = true := by
  decide

/-- C3 amended: two one-shot operations on the same session can overlap
exactly when both acquire the session lock in read mode (the three
listings `GetInterfaces`, `GetAddresses`, `GetQueues`); every operation
that takes the write lock - all mutations, the one-shot traffic sample
and the health probe - never runs concurrently with any other operation
on that session. -/
theorem sessionLock_serializes_writes :
    ∀ a b : SessionOp,
      (mayRunConcurrently a b = true ↔
        sessionLockMode a = LockMode.read ∧
          sessionLockMode b = LockMode.read) ∧
      (sessionLockMode a = LockMode.write →
        mayRunConcurrently a b = false) := by
  decide

/-- C3 amended witness: `EnableInterface` (write lock) cannot overlap
`GetInterfaces`. -/
theorem sessionLock_serializes_writes_witness :
    mayRunConcurrently SessionOp.enableInterface SessionOp.getInterfaces =
      false :=
  (sessionLock_serializes_writes SessionOp.enableInterface
    SessionOp.getInterfaces).2 rfl

/-! ## Claim C4 -/

/-- C4 counterexample: `ConnectRouter` performs its network calls (the
TCP dial plus login of `dialWithTimeout`, and the `getSystemInfo` device
command) with `ms.mu` held - its whole body runs under the map lock - so
the map lock is NOT held only for map lookups/mutations. -/
theorem mapLock_counterexample :
    ∃ s ∈ opTrace ServiceOp.connectRouter,
      isNetworkCall s.action = true ∧ s.mapLockHeld = true := by
  decide

/-- C4 amended: outside `ConnectRouter`, no service operation holds the
map lock while a network call is in progress: the one-shot command paths
run their device commands under the per-session lock with the map lock
released, and the remaining map operations only read or mutate the map
under it. `ConnectRouter`, however, holds the map lock across the dial,
the login, and the post-connect system-info command. -/
theorem mapLock_network_free_outside_connect :
    ∀ op : ServiceOp, op ≠ ServiceOp.connectRouter →
      ∀ s ∈ opTrace op, isNetworkCall s.action = true →
        s.mapLockHeld = false := by
  decide

/-- C4 amended witness: the device command of `GetInterfaces` runs with
the map lock released. -/
theorem mapLock_network_free_witness :
    ({ mapLockHeld := false, sessionLockHeld := true,
       action := StepAction.netCommand } : TraceStep).mapLockHeld = false :=
  mapLock_network_free_outside_connect ServiceOp.getInterfaces (by decide)
    { mapLockHeld := false, sessionLockHeld := true,
      action := StepAction.netCommand } (by decide) rfl

/-! ## Claim C8 -/

/-- C8: the dispatch loop forwards a sample to the consumer callback for
exactly the received sentences whose word is `!re` (traps, done markers
and any other words are dropped), in order, and every counter and
bit-rate field of a forwarded sample is the sentence map's value
verbatim - no arithmetic is performed on them. -/
theorem monitorDispatch_re_only (routerID : Nat) (interfaceName : String)
    (received : List (Sentence × Nat)) :
    (monitorDispatchLoop routerID interfaceName received =
      (received.filter (fun p => p.1.Word == "!re")).map
        (fun p => trafficStatsOf routerID interfaceName p.1 p.2)) ∧
    (∀ (s : Sentence) (now : Nat),
      (trafficStatsOf routerID interfaceName s now).RxBytes =
          mapGet s.Map "rx-bytes" ∧
        (trafficStatsOf routerID interfaceName s now).TxBytes =
          mapGet s.Map "tx-bytes" ∧
        (trafficStatsOf routerID interfaceName s now).RxPackets =
          mapGet s.Map "rx-packets" ∧
        (trafficStatsOf routerID interfaceName s now).TxPackets =
          mapGet s.Map "tx-packets" ∧
        (trafficStatsOf routerID interfaceName s now).RxBitsPerSec =
          mapGet s.Map "rx-bits-per-second" ∧
        (trafficStatsOf routerID interfaceName s now).TxBitsPerSec =
          mapGet s.Map "tx-bits-per-second") := by
  constructor
  · induction received with
    | nil => rfl
    | cons p rest ih =>
      obtain ⟨s, now⟩ := p
      by_cases h1 : s.Word = "!trap"
      · simp [monitorDispatchLoop, h1, ih]
      · by_cases h2 : s.Word = "!done"
        · simp [monitorDispatchLoop, h2, ih]
        · by_cases h3 : s.Word = "!re"
          · simp [monitorDispatchLoop, h3, ih]
          · simp [monitorDispatchLoop, h1, h2, h3, ih]
  · intro s now
    exact ⟨rfl, rfl, rfl, rfl, rfl, rfl⟩

/-! ## Claim C7 -/

/-- There are never more start errors than requested interfaces. -/
theorem collectStartErrors_length_le (startErr : String → Option String)
    (interfaces : List String) :
    (collectStartErrors startErr interfaces).length ≤ interfaces.length := by
  induction interfaces with
  | nil => simp [collectStartErrors]
  | cons i rest ih =>
    simp only [collectStartErrors, List.filterMap_cons] at *
    cases h : startErr i with
    | none => simpa [h] using Nat.le_succ_of_le ih
    | some e => simpa [h] using Nat.succ_le_succ ih

/-- A failing interface contributes a start error. -/
theorem collectStartErrors_length_pos (startErr : String → Option String)
    (interfaces : List String) (i : String) (hi : i ∈ interfaces)
    (hf : (startErr i).isSome = true) :
    0 < (collectStartErrors startErr interfaces).length := by
  induction interfaces with
  | nil => cases hi
  | cons a rest ih =>
    simp only [collectStartErrors, List.filterMap_cons] at *
    cases h : startErr a with
    | none =>
      rcases List.mem_cons.mp hi with rfl | hmem
      · rw [h] at hf; cases hf
      · simpa [h] using ih hmem
    | some e => simp [h]

/-- A succeeding interface keeps the error count strictly below the
request count. -/
theorem collectStartErrors_length_lt (startErr : String → Option String)
    (interfaces : List String) (j : String) (hj : j ∈ interfaces)
    (hs : startErr j = none) :
    (collectStartErrors startErr interfaces).length < interfaces.length := by
  induction interfaces with
  | nil => cases hj
  | cons a rest ih =>
    simp only [collectStartErrors, List.filterMap_cons] at *
    rcases List.mem_cons.mp hj with rfl | hmem
    · simpa [hs] using
        Nat.lt_succ_of_le (collectStartErrors_length_le startErr rest)
    · cases h : startErr a with
      | none => simpa [h] using Nat.lt_succ_of_lt (ih hmem)
      | some e => simpa [h] using Nat.succ_lt_succ (ih hmem)

/-- If every interface fails to start, the error count equals the
request count. -/
theorem collectStartErrors_length_eq (startErr : String → Option String)
    (interfaces : List String)
    (h : ∀ i ∈ interfaces, (startErr i).isSome = true) :
    (collectStartErrors startErr interfaces).length = interfaces.length := by
  induction interfaces with
  | nil => rfl
  | cons a rest ih =>
    have ha := h a (List.mem_cons_self a rest)
    cases hav : startErr a with
    | none => rw [hav] at ha; cases ha
    | some e =>
      simp only [collectStartErrors, List.filterMap_cons, hav, Option.map_some,
        List.length_cons]
      exact congrArg Nat.succ (ih fun i hi => h i (List.mem_cons_of_mem a hi))

/-- Every failed interface is named in the collected start errors. -/
theorem mem_collectStartErrors (startErr : String → Option String)
    (interfaces : List String) (i : String) (e : String)
    (hi : i ∈ interfaces) (he : startErr i = some e) :
    (i ++ ": " ++ e) ∈ collectStartErrors startErr interfaces := by
  induction interfaces with
  | nil => cases hi
  | cons a rest ih =>
    simp only [collectStartErrors, List.filterMap_cons] at *
    rcases List.mem_cons.mp hi with rfl | hmem
    · simp [he]
    · cases h : startErr a with
      | none => simpa [h] using ih hmem
      | some x => simpa [h] using Or.inr (ih hmem)

/-- C7: for a non-empty requested interface list, when some but not all
interfaces fail to start, the handler writes exactly one error event
(whose text names every failed interface, third conjunct) followed by
the connected event, and keeps serving; when every interface fails, it
writes the single error event and terminates immediately. -/
theorem monitorTrafficWS_partial_start (routerID : Nat)
    (interfaces : List String) (startErr : String → Option String) :
    ((∃ i ∈ interfaces, (startErr i).isSome = true) →
      (∃ j ∈ interfaces, startErr j = none) →
      MonitorTrafficWSStatusPhase routerID interfaces startErr =
        { events :=
            [WsEvent.errorEvent
               (failedStartMessage (collectStartErrors startErr interfaces)),
             WsEvent.connected
               (connectedMessage routerID interfaces
                 (interfaces.length -
                   (collectStartErrors startErr interfaces).length))],
          terminated := false }) ∧
    (interfaces ≠ [] → (∀ i ∈ interfaces, (startErr i).isSome = true) →
      MonitorTrafficWSStatusPhase routerID interfaces startErr =
        { events :=
            [WsEvent.errorEvent
               (failedStartMessage (collectStartErrors startErr interfaces))],
          terminated := true }) ∧
    (∀ i e, i ∈ interfaces → startErr i = some e →
      (i ++ ": " ++ e) ∈ collectStartErrors startErr interfaces) := by
  refine ⟨?_, ?_, ?_⟩
  · rintro ⟨i, hi, hfail⟩ ⟨j, hj, hok⟩
    have hpos := collectStartErrors_length_pos startErr interfaces i hi hfail
    have hlt := collectStartErrors_length_lt startErr interfaces j hj hok
    have hne : ((collectStartErrors startErr interfaces).length ==
        interfaces.length) = false := by
      simp [Nat.ne_of_lt hlt]
    have hsc : 0 < interfaces.length -
        (collectStartErrors startErr interfaces).length :=
      Nat.sub_pos_of_lt hlt
    simp [MonitorTrafficWSStatusPhase, hpos, hne, wsSuccessEvents, hsc]
  · intro hne hall
    have heq := collectStartErrors_length_eq startErr interfaces hall
    have hpos : 0 < (collectStartErrors startErr interfaces).length := by
      rw [heq]
      exact List.length_pos.mpr hne
    simp [MonitorTrafficWSStatusPhase, hpos, heq, hne]
  · intro i e hi he
    exact mem_collectStartErrors startErr interfaces i e hi he

/-- Start-outcome environment for the C7 witness: `doesnotexist` is
rejected by the device, `ether1` starts fine. -/
def wsStartErrExample : String → Option String := fun i =>
  if i == "doesnotexist" then
    some "failed to start monitoring: unknown interface"
  else none

/-- C7 witness: `interfaces=ether1,doesnotexist` yields one error event
naming the failed stream plus the connected event, without terminating. -/
theorem monitorTrafficWS_partial_start_witness :
    MonitorTrafficWSStatusPhase 1 ["ether1", "doesnotexist"]
        wsStartErrExample =
      { events :=
          [WsEvent.errorEvent
             (failedStartMessage
               (collectStartErrors wsStartErrExample
                 ["ether1", "doesnotexist"])),
           WsEvent.connected
             (connectedMessage 1 ["ether1", "doesnotexist"]
               (["ether1", "doesnotexist"].length -
                 (collectStartErrors wsStartErrExample
                   ["ether1", "doesnotexist"]).length))],
        terminated := false } :=
  (monitorTrafficWS_partial_start 1 ["ether1", "doesnotexist"]
      wsStartErrExample).1
    ⟨"doesnotexist", by decide, by decide⟩
    ⟨"ether1", by decide, by decide⟩

/-! ## Claim C1 -/

/-- A list has a match for `p` iff its `p`-count is positive. -/
theorem any_iff_countP_pos {α : Type} (p : α → Bool) (l : List α) :
    l.any p = true ↔ 0 < l.countP p := by
  rw [List.any_eq_true, List.countP_pos_iff]

/-- When everything matching `p` also matches `q`, erasing the first
`p`-match lowers the `q`-count by one exactly when a `p`-match exists. -/
theorem countP_eraseP_of_imp {α : Type} (p q : α → Bool)
    (h : ∀ a, p a = true → q a = true) (l : List α) :
    (l.eraseP p).countP q =
      if l.any p then l.countP q - 1 else l.countP q := by
  induction l with
  | nil => simp
  | cons a t ih =>
    by_cases hpa : p a = true
    · simp [List.eraseP_cons, hpa, List.countP_cons, List.any_cons, h a hpa]
    · have hpa' : p a = false := by simpa using hpa
      simp only [List.eraseP_cons, hpa', cond_false, List.countP_cons,
        List.any_cons, Bool.false_or, ih]
      by_cases hat : t.any p = true
      · have hpos : 0 < t.countP q := by
          rcases List.any_eq_true.mp hat with ⟨x, hx, hpx⟩
          exact List.countP_pos_iff.mpr ⟨x, hx, h x hpx⟩
        simp only [hat, if_true]
        split <;> omega
      · have hat' : t.any p = false := by simpa using hat
        simp [hat']

/-- When nothing matching `p` matches `q`, erasing the first `p`-match
leaves the `q`-count unchanged. -/
theorem countP_eraseP_of_disjoint {α : Type} (p q : α → Bool)
    (h : ∀ a, p a = true → q a = false) (l : List α) :
    (l.eraseP p).countP q = l.countP q := by
  induction l with
  | nil => rfl
  | cons a t ih =>
    by_cases hpa : p a = true
    · simp [List.eraseP_cons, hpa, List.countP_cons, h a hpa]
    · have hpa' : p a = false := by simpa using hpa
      simp [List.eraseP_cons, hpa', List.countP_cons, ih]

/-- Two synchronized erasures keep synchronized counts: if the `q`-counts
of two lists agree, the erased predicates imply the counted ones, and the
erased predicates' own counts agree, the counts after erasing agree. -/
theorem countP_eraseP_sync {α β : Type} (pL qL : α → Bool)
    (pC qC : β → Bool) (lL : List α) (lC : List β)
    (himpL : ∀ a, pL a = true → qL a = true)
    (himpC : ∀ a, pC a = true → qC a = true)
    (hq : lL.countP qL = lC.countP qC)
    (hp : lL.countP pL = lC.countP pC) :
    (lL.eraseP pL).countP qL = (lC.eraseP pC).countP qC := by
  rw [countP_eraseP_of_imp pL qL himpL, countP_eraseP_of_imp pC qC himpC, hq]
  by_cases h : lL.any pL = true
  · have hC : lC.any pC = true :=
      (any_iff_countP_pos pC lC).mpr (hp ▸ (any_iff_countP_pos pL lL).mp h)
    simp [h, hC]
  · have h' : lL.any pL = false := by simpa using h
    have hC : lC.any pC = false := by
      by_contra hc
      have hc' : lC.any pC = true := by simpa using hc
      have := (any_iff_countP_pos pC lC).mp hc'
      have := (any_iff_countP_pos pL lL).mpr (hp ▸ this)
      simp [h'] at this
    simp [h', hC]

/-- Synchronized erasures of matches disjoint from the counted
predicates leave agreeing counts agreeing. -/
theorem countP_eraseP_sync_disjoint {α β : Type} (pL qL : α → Bool)
    (pC qC : β → Bool) (lL : List α) (lC : List β)
    (hdisL : ∀ a, pL a = true → qL a = false)
    (hdisC : ∀ a, pC a = true → qC a = false)
    (hq : lL.countP qL = lC.countP qC) :
    (lL.eraseP pL).countP qL = (lC.eraseP pC).countP qC := by
  rw [countP_eraseP_of_disjoint pL qL hdisL,
    countP_eraseP_of_disjoint pC qC hdisC, hq]

/-- Componentwise reading of a listener triple match. -/
theorem listenOwnedBy_eq_true_iff (rid : Nat) (ifn : String) (cid : Nat)
    (e : ListenEntry) :
    listenOwnedBy rid ifn cid e = true ↔
      e.routerID = rid ∧ e.iface = ifn ∧ e.owner = cid := by
  simp [listenOwnedBy, and_assoc]

/-- Componentwise reading of a consumer triple match. -/
theorem consumerIs_eq_true_iff (rid : Nat) (ifn : String) (cid : Nat)
    (e : ConsumerEntry) :
    consumerIs rid ifn cid e = true ↔
      e.routerID = rid ∧ e.iface = ifn ∧ e.consumerId = cid := by
  simp [consumerIs, and_assoc]

/-- The reference-count relation that actually holds in the code: every
(router, interface) pair has as many open device-side `Listen`
subscriptions as registered consumers (one per consumer), and each
consumer owns exactly as many listeners as it has registrations. -/
def MonitorInv (s : MonitorState) : Prop :=
  (∀ routerID iface,
    listenCount s routerID iface = consumerCount s routerID iface) ∧
  (∀ routerID iface consumerId,
    ownedListenCount s routerID iface consumerId =
      registeredCount s routerID iface consumerId)

/-- The idle state satisfies the invariant. -/
theorem monitorInv_init : MonitorInv MonitorState.init :=
  ⟨fun _ _ => rfl, fun _ _ _ => rfl⟩

/-- Every lifecycle step preserves the invariant. -/
theorem monitorStep_inv (s : MonitorState) (op : MonitorOp)
    (h : MonitorInv s) : MonitorInv (monitorStep s op) := by
  obtain ⟨hpair, htriple⟩ := h
  cases op with
  | start rid ifn cid ok =>
    cases ok with
    | false => exact ⟨hpair, htriple⟩
    | true =>
      constructor
      · intro r' i'
        have hp := hpair r' i'
        simp only [listenCount, consumerCount] at hp
        simp [monitorStep, listenCount, consumerCount, List.countP_cons, hp]
      · intro r' i' c'
        have ht := htriple r' i' c'
        simp only [ownedListenCount, registeredCount] at ht
        simp [monitorStep, ownedListenCount, registeredCount,
          List.countP_cons, listenOwnedBy, consumerIs, ht]
  | stop rid ifn cid =>
    constructor
    · intro r' i'
      simp only [monitorStep, listenCount, consumerCount]
      by_cases hsame : rid = r' ∧ ifn = i'
      · obtain ⟨rfl, rfl⟩ := hsame
        refine countP_eraseP_sync _ _ _ _ _ _ ?_ ?_ (hpair rid ifn)
          (htriple rid ifn cid)
        · intro a ha
          obtain ⟨h1, h2, _⟩ := (listenOwnedBy_eq_true_iff rid ifn cid a).mp ha
          simp [h1, h2]
        · intro a ha
          obtain ⟨h1, h2, _⟩ := (consumerIs_eq_true_iff rid ifn cid a).mp ha
          simp [h1, h2]
      · refine countP_eraseP_sync_disjoint _ _ _ _ _ _ ?_ ?_ (hpair r' i')
        · intro a ha
          obtain ⟨h1, h2, _⟩ := (listenOwnedBy_eq_true_iff rid ifn cid a).mp ha
          by_contra hq
          have hq' : (a.routerID == r' && a.iface == i') = true := by
            simpa using hq
          simp only [Bool.and_eq_true, beq_iff_eq] at hq'
          exact hsame ⟨h1 ▸ hq'.1, h2 ▸ hq'.2⟩
        · intro a ha
          obtain ⟨h1, h2, _⟩ := (consumerIs_eq_true_iff rid ifn cid a).mp ha
          by_contra hq
          have hq' : (a.routerID == r' && a.iface == i') = true := by
            simpa using hq
          simp only [Bool.and_eq_true, beq_iff_eq] at hq'
          exact hsame ⟨h1 ▸ hq'.1, h2 ▸ hq'.2⟩
    · intro r' i' c'
      simp only [monitorStep, ownedListenCount, registeredCount]
      by_cases hsame : rid = r' ∧ ifn = i' ∧ cid = c'
      · obtain ⟨rfl, rfl, rfl⟩ := hsame
        exact countP_eraseP_sync _ _ _ _ _ _ (fun a ha => ha)
          (fun a ha => ha) (htriple rid ifn cid) (htriple rid ifn cid)
      · refine countP_eraseP_sync_disjoint _ _ _ _ _ _ ?_ ?_
          (htriple r' i' c')
        · intro a ha
          obtain ⟨h1, h2, h3⟩ := (listenOwnedBy_eq_true_iff rid ifn cid a).mp ha
          by_contra hq
          have hq' := (listenOwnedBy_eq_true_iff r' i' c' a).mp (by simpa using hq)
          exact hsame ⟨h1 ▸ hq'.1, h2 ▸ hq'.2.1, h3 ▸ hq'.2.2⟩
        · intro a ha
          obtain ⟨h1, h2, h3⟩ := (consumerIs_eq_true_iff rid ifn cid a).mp ha
          by_contra hq
          have hq' := (consumerIs_eq_true_iff r' i' c' a).mp (by simpa using hq)
          exact hsame ⟨h1 ▸ hq'.1, h2 ▸ hq'.2.1, h3 ▸ hq'.2.2⟩

/-- Every reachable monitoring state satisfies the invariant. -/
theorem monitorRun_inv (ops : List MonitorOp) : MonitorInv (monitorRun ops) := by
  suffices h : ∀ s, MonitorInv s → MonitorInv (ops.foldl monitorStep s) from
    h MonitorState.init monitorInv_init
  induction ops with
  | nil => exact fun s hs => hs
  | cons op rest ih =>
    exact fun s hs => ih (monitorStep s op) (monitorStep_inv s op hs)

/-- C1 counterexample: two consumers registering for the same
(router 1, "ether1") stream - e.g. two WebSocket clients - open TWO
underlying `Listen` subscriptions on the device, not one: the claimed
"exactly 1 when consumer count is positive" invariant fails. -/
theorem listen_per_pair_counterexample :
    consumerCount
        (monitorRun
          [MonitorOp.start 1 "ether1" 0 true,
           MonitorOp.start 1 "ether1" 1 true]) 1 "ether1" = 2 ∧
      listenCount
        (monitorRun
          [MonitorOp.start 1 "ether1" 0 true,
           MonitorOp.start 1 "ether1" 1 true]) 1 "ether1" = 2 ∧
      listenCount
        (monitorRun
          [MonitorOp.start 1 "ether1" 0 true,
           MonitorOp.start 1 "ether1" 1 true]) 1 "ether1" ≠ 1 := by
  refine ⟨rfl, rfl, by decide⟩

/-- C1 amended: there is no multiplexer in the code - every consumer
registration issues its own device-side `Listen` - so in every reachable
monitoring state the number of open underlying subscriptions for a
(device, stream) pair equals that pair's consumer count (one per
consumer), rather than being capped at one. -/
theorem listen_count_eq_consumer_count (ops : List MonitorOp)
    (routerID : Nat) (iface : String) :
    listenCount (monitorRun ops) routerID iface =
      consumerCount (monitorRun ops) routerID iface :=
  (monitorRun_inv ops).1 routerID iface

end MikrotikLayer
